import Mathlib

/-!
# Verification of `connectors/services/sync.py` (`SyncService`)

Shallow embedding of the sync orchestration service. The per-item state
machine `SyncService._one_sync`, the `stop` method and the main loop
`SyncService._run` are translated from `src/connectors/services/sync.py`
into pure Lean functions that return the trace of observable effects
(log calls at their severities, collaborator calls) together with the
control-flow outcome (normal return vs. a propagating exception).

Collaborators that live outside the given sources (`ConcurrentTasks` from
`connectors/utils.py`, `BaseService.raise_if_spurious` and the `running`
flag from `connectors/services/base.py`, the `Status` enum from
`connectors/byoc.py`) are modelled from the spec where noted.
-/

set_option autoImplicit false

namespace SyncSpec

/-- Exception kinds that can cross the stage boundaries of `_one_sync`.
The first four are the kinds imported from `connectors.byoc` and caught by
name in the first `try` block; `invalidFiltering` is
`connectors.filtering.validation.InvalidFilteringError`; `other` stands for
any exception of none of these classes. -/
inductive Exc
  | serviceTypeNotConfigured
  | connectorUpdateError
  | serviceTypeNotSupported
  | dataSourceError
  | invalidFiltering
  | other
  deriving DecidableEq, Repr

/-- Modelled from the spec: the connector `Status` enum lives in
`connectors/byoc.py`, which is not among the given sources. The spec only
distinguishes the not-ready set {`CREATED`, `NEEDS_CONFIGURATION`} from
"any other status"; the remaining constructors stand for those others. -/
inductive Status
  | created
  | needsConfiguration
  | configured
  | connected
  | error
  deriving DecidableEq, Repr

/-- Observable effects of one `_one_sync` invocation, in program order.
Each constructor corresponds to one call site in
`src/connectors/services/sync.py` lines 53-105; the name records the log
severity where the effect is a log call. -/
inductive Event
  | logSkipTerminating    -- line 55: logger.debug, service terminating
  | logNative             -- line 61: logger.debug, natively supported
  | prepareCalled         -- line 64: await connector.prepare(config)
  | logErrorNotConfigured -- line 66: logger.error, ServiceTypeNotConfiguredError
  | logErrorUpdate        -- line 71: logger.error, ConnectorUpdateError
  | logDebugNotSupported  -- line 74: logger.debug, ServiceTypeNotSupportedError
  | errorRecorded         -- line 77: await connector.error(e)
  | logCriticalDataSource -- line 78: logger.critical(e, exc_info=True)
  | classifierConsulted   -- line 79: self.raise_if_spurious(e)
  | heartbeatStarted      -- line 84: connector.start_heartbeat(hb)
  | logStatus             -- line 86: logger.debug, connector status
  | logCantSync           -- line 91: logger.info, cannot sync in this status
  | validateCalled        -- line 94: await validate_filtering(...)
  | syncCalled            -- line 98: await connector.sync(es, idling)
  | yielded               -- line 100: await asyncio.sleep(0)
  | logErrorFiltering     -- line 102: logger.error, InvalidFilteringError
  | closeCalled           -- line 105: await connector.close()
  deriving DecidableEq, Repr

/-- Control-flow outcome of a block: normal return or a propagating
exception. -/
inductive Outcome
  | normal
  | raised (e : Exc)
  deriving DecidableEq, Repr

/-- Behaviour of one work item ("connector") as seen by `_one_sync`: its
fields read by the state machine, and for each collaborator call that the
code wraps in a `try`, whether it returns normally (`none`) or raises a
given exception (`some e`). -/
structure Connector where
  native : Bool
  status : Status
  syncRulesEnabled : Bool  -- connector.features.sync_rules_enabled()
  prepare : Option Exc     -- behaviour of await connector.prepare(config)
  validate : Option Exc    -- behaviour of await validate_filtering(...)
  sync : Option Exc        -- behaviour of await connector.sync(es, idling)
  deriving DecidableEq, Repr

/-- Embeds lines 98-105 of `sync.py`: the `connector.sync` call, the
yield point, and the tail of the enclosing `try` block, whose
`except InvalidFilteringError` clause logs and returns and whose `finally`
clause always runs `connector.close()` before the block exits, also on a
propagating exception. `pre` is the trace accumulated so far. -/
def syncStage (pre : List Event) (c : Connector) : List Event × Outcome :=
  match c.sync with
  | none =>
      (pre ++ [Event.syncCalled, Event.yielded, Event.closeCalled], Outcome.normal)
  | some Exc.invalidFiltering =>
      (pre ++ [Event.syncCalled, Event.logErrorFiltering, Event.closeCalled], Outcome.normal)
  | some e =>
      (pre ++ [Event.syncCalled, Event.closeCalled], Outcome.raised e)

/-- Embeds lines 93-98 of `sync.py`: the optional draft-filtering
validation guarded by `connector.features.sync_rules_enabled()`, followed
by the sync call. An `InvalidFilteringError` from validation is caught by
the block's `except` clause (log error, return) and any other exception
propagates; in both cases the `finally` clause runs `connector.close()`. -/
def validateAndSync (pre : List Event) (c : Connector) : List Event × Outcome :=
  if c.syncRulesEnabled then
    match c.validate with
    | none => syncStage (pre ++ [Event.validateCalled]) c
    | some Exc.invalidFiltering =>
        (pre ++ [Event.validateCalled, Event.logErrorFiltering, Event.closeCalled],
         Outcome.normal)
    | some e =>
        (pre ++ [Event.validateCalled, Event.closeCalled], Outcome.raised e)
  else
    syncStage pre c

/-- Embeds `SyncService._one_sync` (lines 53-105 of `sync.py`).

`running` is `BaseService.running` as observed at entry; `fatal` is the
verdict of `BaseService.raise_if_spurious` (modelled from the spec: the
classifier's policy body is in `connectors/services/base.py`, not among
the given sources - `fatal e = true` means the call re-raises `e`,
`false` means it swallows it). Returns the trace of effects and the
outcome of the coroutine. -/
def oneSync (running : Bool) (fatal : Exc → Bool) (c : Connector) :
    List Event × Outcome :=
  if running = false then
    ([Event.logSkipTerminating], Outcome.normal)
  else
    let t0 : List Event := if c.native then [Event.logNative] else []
    match c.prepare with
    | some Exc.serviceTypeNotConfigured =>
        (t0 ++ [Event.prepareCalled, Event.logErrorNotConfigured], Outcome.normal)
    | some Exc.connectorUpdateError =>
        (t0 ++ [Event.prepareCalled, Event.logErrorUpdate], Outcome.normal)
    | some Exc.serviceTypeNotSupported =>
        (t0 ++ [Event.prepareCalled, Event.logDebugNotSupported], Outcome.normal)
    | some Exc.dataSourceError =>
        (t0 ++ [Event.prepareCalled, Event.errorRecorded,
                Event.logCriticalDataSource, Event.classifierConsulted],
         if fatal Exc.dataSourceError then Outcome.raised Exc.dataSourceError
         else Outcome.normal)
    | some e =>
        (t0 ++ [Event.prepareCalled], Outcome.raised e)
    | none =>
        let pre := t0 ++ [Event.prepareCalled, Event.heartbeatStarted, Event.logStatus]
        if c.status = Status.created ∨ c.status = Status.needsConfiguration then
          (pre ++ [Event.logCantSync, Event.yielded, Event.closeCalled], Outcome.normal)
        else
          validateAndSync pre c

/-- Observable effects of the main loop `SyncService._run` and of
`SyncService.stop` (lines 48-51 and 107-157 of `sync.py`). A whole item
unit run is recorded as one `ranUnit` event carrying the unit's own trace
and outcome, per the contract that the pool's join does not propagate
per-unit exceptions. -/
inductive LEvent
  | poolCreated           -- line 130: ConcurrentTasks(max_concurrency=...)
  | logPolling            -- line 133: logger.debug, polling cadence
  | ranUnit (t : List Event) (o : Outcome) -- lines 137-140: a submitted _one_sync unit
  | logCriticalDiscovery  -- line 142: logger.critical(e, exc_info=True)
  | loopClassifierConsulted -- line 143: self.raise_if_spurious(e)
  | poolJoined            -- line 145: await self.syncs.join()
  | cancelRequested       -- line 51: self.syncs.cancel()
  | slept                 -- line 151: await self._sleeps.sleep(self.idling)
  | dirStopWaiting        -- line 154: self.connectors.stop_waiting()
  | dirClosed             -- line 155: await self.connectors.close()
  | esClosed              -- line 156: await es.close()
  deriving DecidableEq, Repr

/-- One round of the orchestration loop as driven by the environment:
the connectors yielded by `self.connectors.get_all_docs` this round, an
exception raised by the discovery/submission loop itself after those
items were submitted (`none` when discovery completes normally), and
whether `stop()` flips `self.running` during this round (observed by the
`if not self.running: break` check at line 149). -/
structure RoundInput where
  items : List Connector
  discoveryError : Option Exc
  stopDuring : Bool
  deriving DecidableEq, Repr

/-- Embeds one iteration body of the `while self.running` loop (lines
130-145 of `sync.py`): create the round's pool, submit one `_one_sync`
unit per discovered item, handle an exception escaping the
discovery/submission loop (log critical, consult the classifier,
propagate if fatal), and always join the pool in the `finally` clause
before the exception propagates or the loop proceeds. -/
def roundTrace (fatal : Exc → Bool) (r : RoundInput) : List LEvent × Outcome :=
  let subs := r.items.map fun c =>
    LEvent.ranUnit (oneSync true fatal c).1 (oneSync true fatal c).2
  match r.discoveryError with
  | none =>
      ([LEvent.poolCreated, LEvent.logPolling] ++ subs ++ [LEvent.poolJoined],
       Outcome.normal)
  | some e =>
      ([LEvent.poolCreated, LEvent.logPolling] ++ subs ++
        [LEvent.logCriticalDiscovery, LEvent.loopClassifierConsulted, LEvent.poolJoined],
       if fatal e then Outcome.raised e else Outcome.normal)

/-- Embeds the `while self.running` loop of `_run` (lines 128-151). The
list argument gives the rounds the environment drives before the running
flag is observed false at the top of the loop; an exhausted list means
`self.running` was false at the `while` check. After a normal round the
loop breaks immediately - without sleeping - when `stop()` was requested
during the round (line 149-150), and otherwise sleeps `idling` seconds
and repeats; a fatal round exception propagates out of the loop. -/
def loopIters (fatal : Exc → Bool) : List RoundInput → List LEvent × Outcome
  | [] => ([], Outcome.normal)
  | r :: rest =>
      let t := (roundTrace fatal r).1
      match (roundTrace fatal r).2 with
      | Outcome.raised e => (t, Outcome.raised e)
      | Outcome.normal =>
          if r.stopDuring then (t, Outcome.normal)
          else
            let next := loopIters fatal rest
            (t ++ LEvent.slept :: next.1, next.2)

/-- Embeds `SyncService._run` (lines 107-157): the loop wrapped in the
outer `try ... finally` that stops and closes the directory connection
(`self.connectors`, created at line 109 and hence never `None` at
teardown) and then closes the execution backend handle `es`, on every
exit path. The outcome is the loop's: `normal` models `return 0`,
`raised e` a fatal error propagating to the caller. -/
def runService (fatal : Exc → Bool) (rounds : List RoundInput) :
    List LEvent × Outcome :=
  let body := loopIters fatal rounds
  (body.1 ++ [LEvent.dirStopWaiting, LEvent.dirClosed, LEvent.esClosed], body.2)

/-- State of the service as read by `stop()`: the running flag and
whether a current round's pool exists (`self.syncs is not None`). -/
structure SvcState where
  running : Bool
  syncsExists : Bool
  deriving DecidableEq, Repr

/-- Embeds `SyncService.stop` (lines 48-51): `await super().stop()` sets
`self.running` to false (modelled from the spec: `BaseService.stop` is in
`connectors/services/base.py`, not among the given sources), then
`self.syncs.cancel()` is called if a pool exists. Returns the new state
and the trace of effects; `stop` itself performs no join. -/
def stop (s : SvcState) : SvcState × List LEvent :=
  (⟨false, s.syncsExists⟩,
   if s.syncsExists then [LEvent.cancelRequested] else [])

/-- Constant `DEFAULT_MAX_CONCURRENT_SYNCS` (line 34 of `sync.py`). -/
def DEFAULT_MAX_CONCURRENT_SYNCS : Nat := 1

/-- Embeds line 42-44 of `sync.py`: `self.concurrent_syncs =
self.service_config.get("max_concurrent_syncs", DEFAULT_MAX_CONCURRENT_SYNCS)`.
The argument is the configured value, `none` when the key is absent. -/
def concurrentSyncs (serviceConfig : Option Nat) : Nat :=
  serviceConfig.getD DEFAULT_MAX_CONCURRENT_SYNCS

/-- Modelled from the spec: the state of the bounded task pool
`ConcurrentTasks` (`connectors/utils.py`, not among the given sources).
`pending` counts units offered but not yet admitted, `inflight` the
currently executing units, `done` the finished units, `offered` the total
ever offered. -/
structure PoolState where
  pending : Nat
  inflight : Nat
  done : Nat
  offered : Nat
  deriving DecidableEq, Repr

/-- Modelled from the spec: the transitions of the bounded task pool.
`offer` is a producer submitting a unit; `start` admits a pending unit,
enabled only while the in-flight set is strictly below the capacity `N`
(backpressure: an offer beyond the budget stays pending and the producer
suspends, it is never dropped); `finish` completes an in-flight unit. -/
inductive PoolStep (N : Nat) : PoolState → PoolState → Prop
  | offer (s : PoolState) :
      PoolStep N s ⟨s.pending + 1, s.inflight, s.done, s.offered + 1⟩
  | start (s : PoolState) (hp : 0 < s.pending) (hi : s.inflight < N) :
      PoolStep N s ⟨s.pending - 1, s.inflight + 1, s.done, s.offered⟩
  | finish (s : PoolState) (hi : 0 < s.inflight) :
      PoolStep N s ⟨s.pending, s.inflight - 1, s.done + 1, s.offered⟩

/-- A pool state reachable from the fresh pool created at the top of a
round. -/
def PoolReachable (N : Nat) (s : PoolState) : Prop :=
  Relation.ReflTransGen (PoolStep N) ⟨0, 0, 0, 0⟩ s

/-! ## Helper lemmas -/

theorem count_closeCalled_syncStage (pre : List Event) (c : Connector) :
    ((syncStage pre c).1.count Event.closeCalled) =
      pre.count Event.closeCalled + 1 := by
  rcases hs : c.sync with _ | e
  · simp [syncStage, hs, List.count_append]
  · cases e <;> simp [syncStage, hs, List.count_append]

theorem count_closeCalled_validateAndSync (pre : List Event) (c : Connector) :
    ((validateAndSync pre c).1.count Event.closeCalled) =
      pre.count Event.closeCalled + 1 := by
  by_cases hr : c.syncRulesEnabled
  · rcases hv : c.validate with _ | e
    · simp [validateAndSync, hr, hv, count_closeCalled_syncStage, List.count_append]
    · cases e <;> simp [validateAndSync, hr, hv, List.count_append]
  · simp [validateAndSync, hr, count_closeCalled_syncStage]

theorem count_closeCalled_native (c : Connector) :
    (if c.native then [Event.logNative] else []).count Event.closeCalled = 0 := by
  cases hn : c.native <;> simp

theorem mem_native_elim {c : Connector} {x : Event}
    (hx : x ∈ (if c.native then [Event.logNative] else [])) : x = Event.logNative := by
  by_cases hn : c.native
  · simpa [hn] using hx
  · simp [hn] at hx

/-! ## Theorems for the claims -/

/-- C9: when the run-state flag is false at entry, `_one_sync` logs at
debug level and returns immediately: no prepare, no heartbeat, no backend
sync call, no error recorded, no close, and a normal return. -/
theorem C9_liveness_gate_no_side_effects (fatal : Exc → Bool) (c : Connector) :
    oneSync false fatal c = ([Event.logSkipTerminating], Outcome.normal) ∧
    Event.prepareCalled ∉ (oneSync false fatal c).1 ∧
    Event.heartbeatStarted ∉ (oneSync false fatal c).1 ∧
    Event.syncCalled ∉ (oneSync false fatal c).1 ∧
    Event.errorRecorded ∉ (oneSync false fatal c).1 ∧
    Event.closeCalled ∉ (oneSync false fatal c).1 := by
  refine ⟨by simp [oneSync], ?_, ?_, ?_, ?_, ?_⟩ <;> simp [oneSync]

/-- C1 (amended): `connector.close` is invoked exactly once when
`prepare` completed without raising (whatever the later stages do), and
is not invoked at all when the liveness gate short-circuited the unit or
when `prepare` itself raised: the `finally` block holding the close only
wraps the post-prepare stages. -/
theorem C1_close_exactly_when_prepare_succeeds (running : Bool)
    (fatal : Exc → Bool) (c : Connector) :
    (oneSync running fatal c).1.count Event.closeCalled =
      (if running = true ∧ c.prepare = none then 1 else 0) := by
  cases running with
  | false => simp [oneSync]
  | true =>
      rcases hp : c.prepare with _ | e
      · by_cases hst : c.status = Status.created ∨ c.status = Status.needsConfiguration
        · simp [oneSync, hp, hst, List.count_append, count_closeCalled_native]
        · simp [oneSync, hp, hst, count_closeCalled_validateAndSync,
            List.count_append, count_closeCalled_native]
      · cases e <;>
          simp [oneSync, hp, List.count_append, count_closeCalled_native]

/-- C1 counterexample: a connector whose `prepare` raises
`ServiceTypeNotConfiguredError`. Prepare is attempted, yet
`connector.close` is never invoked, contradicting the claim that
finalize runs exactly once whenever prepare was attempted even when it
raised. -/
theorem C1_counterexample_prepare_raised_no_close :
    Event.prepareCalled ∈
      (oneSync true (fun _ => false)
        ⟨false, Status.connected, false, some Exc.serviceTypeNotConfigured,
         none, none⟩).1 ∧
    (oneSync true (fun _ => false)
        ⟨false, Status.connected, false, some Exc.serviceTypeNotConfigured,
         none, none⟩).1.count Event.closeCalled = 0 := by
  decide

/-- C10: a prepare-stage exception of none of the four recognized kinds
propagates out of the unit: the unit's trace is just the optional native
debug log followed by the prepare call - no error recorded against the
item, no log of the exception, no close - and the outcome re-raises it. -/
theorem C10_unrecognized_prepare_exception_propagates (fatal : Exc → Bool)
    (c : Connector) (e : Exc) (hp : c.prepare = some e)
    (h1 : e ≠ Exc.serviceTypeNotConfigured) (h2 : e ≠ Exc.connectorUpdateError)
    (h3 : e ≠ Exc.serviceTypeNotSupported) (h4 : e ≠ Exc.dataSourceError) :
    oneSync true fatal c =
      ((if c.native then [Event.logNative] else []) ++ [Event.prepareCalled],
        Outcome.raised e) ∧
    Event.errorRecorded ∉ (oneSync true fatal c).1 ∧
    Event.closeCalled ∉ (oneSync true fatal c).1 ∧
    Event.logErrorNotConfigured ∉ (oneSync true fatal c).1 ∧
    Event.logErrorUpdate ∉ (oneSync true fatal c).1 ∧
    Event.logDebugNotSupported ∉ (oneSync true fatal c).1 ∧
    Event.logCriticalDataSource ∉ (oneSync true fatal c).1 ∧
    Event.logErrorFiltering ∉ (oneSync true fatal c).1 := by
  have heq : oneSync true fatal c =
      ((if c.native then [Event.logNative] else []) ++ [Event.prepareCalled],
        Outcome.raised e) := by
    cases e <;> simp_all [oneSync]
  refine ⟨heq, ?_, ?_, ?_, ?_, ?_, ?_, ?_⟩ <;>
    · rw [heq]
      intro hx
      rcases List.mem_append.mp hx with hx | hx
      · cases mem_native_elim hx
      · simp at hx

/-- C10 witness: a concrete connector whose `prepare` raises an
unrecognized exception kind. -/
theorem C10_witness :
    oneSync true (fun _ => false)
        ⟨true, Status.connected, false, some Exc.other, none, none⟩ =
      ([Event.logNative, Event.prepareCalled], Outcome.raised Exc.other) ∧
    Event.closeCalled ∉
      (oneSync true (fun _ => false)
        ⟨true, Status.connected, false, some Exc.other, none, none⟩).1 := by
  have h := C10_unrecognized_prepare_exception_propagates (fun _ => false)
    ⟨true, Status.connected, false, some Exc.other, none, none⟩ Exc.other rfl
    (by decide) (by decide) (by decide) (by decide)
  exact ⟨by simpa using h.1, h.2.2.1⟩

/-- C2 counterexample: a ready connector whose `sync` raises a
`DataSourceError`. Contrary to the claim, the fault is not handled like
prepare's catch-all case: no error is recorded against the item, nothing
is logged at critical severity, the classifier is never consulted, and
the exception propagates out of the unit. -/
theorem C2_counterexample_sync_fault_not_recorded :
    Event.errorRecorded ∉
      (oneSync true (fun _ => false)
        ⟨false, Status.connected, false, none, none, some Exc.dataSourceError⟩).1 ∧
    Event.logCriticalDataSource ∉
      (oneSync true (fun _ => false)
        ⟨false, Status.connected, false, none, none, some Exc.dataSourceError⟩).1 ∧
    Event.classifierConsulted ∉
      (oneSync true (fun _ => false)
        ⟨false, Status.connected, false, none, none, some Exc.dataSourceError⟩).1 ∧
    (oneSync true (fun _ => false)
        ⟨false, Status.connected, false, none, none, some Exc.dataSourceError⟩).2 =
      Outcome.raised Exc.dataSourceError := by
  decide

/-- C2 (amended): a `DataSourceError` raised by the execute stage
(`connector.sync`) is not caught inside the unit - the enclosing `try`
only catches `InvalidFilteringError`. The item's error state is not
updated, nothing is logged at critical severity in the unit, the Error
Classifier is not consulted; the `finally` clause still closes the
connector exactly once and the exception propagates out of the unit. -/
theorem C2_sync_data_source_fault_uncaught (fatal : Exc → Bool) (c : Connector)
    (hp : c.prepare = none)
    (hst : ¬(c.status = Status.created ∨ c.status = Status.needsConfiguration))
    (hv : c.syncRulesEnabled = false ∨ c.validate = none)
    (hs : c.sync = some Exc.dataSourceError) :
    (oneSync true fatal c).2 = Outcome.raised Exc.dataSourceError ∧
    Event.errorRecorded ∉ (oneSync true fatal c).1 ∧
    Event.logCriticalDataSource ∉ (oneSync true fatal c).1 ∧
    Event.classifierConsulted ∉ (oneSync true fatal c).1 ∧
    (oneSync true fatal c).1.count Event.closeCalled = 1 := by
  have heq : oneSync true fatal c =
      ((if c.native then [Event.logNative] else []) ++
        [Event.prepareCalled, Event.heartbeatStarted, Event.logStatus] ++
        (if c.syncRulesEnabled then [Event.validateCalled] else []) ++
        [Event.syncCalled, Event.closeCalled],
       Outcome.raised Exc.dataSourceError) := by
    rcases hv with hv | hv
    · simp [oneSync, hp, hst, hv, validateAndSync, syncStage, hs]
    · by_cases hr : c.syncRulesEnabled <;>
        simp [oneSync, hp, hst, hv, hr, validateAndSync, syncStage, hs]
  refine ⟨by rw [heq], ?_, ?_, ?_, ?_⟩ <;> rw [heq]
  · intro hx
    rcases List.mem_append.mp hx with hx | hx
    · rcases List.mem_append.mp hx with hx | hx
      · rcases List.mem_append.mp hx with hx | hx
        · cases mem_native_elim hx
        · simp at hx
      · rcases hr : c.syncRulesEnabled <;> simp [hr] at hx
    · simp at hx
  · intro hx
    rcases List.mem_append.mp hx with hx | hx
    · rcases List.mem_append.mp hx with hx | hx
      · rcases List.mem_append.mp hx with hx | hx
        · cases mem_native_elim hx
        · simp at hx
      · rcases hr : c.syncRulesEnabled <;> simp [hr] at hx
    · simp at hx
  · intro hx
    rcases List.mem_append.mp hx with hx | hx
    · rcases List.mem_append.mp hx with hx | hx
      · rcases List.mem_append.mp hx with hx | hx
        · cases mem_native_elim hx
        · simp at hx
      · rcases hr : c.syncRulesEnabled <;> simp [hr] at hx
    · simp at hx
  · rcases hr : c.syncRulesEnabled <;>
      simp [List.count_append, count_closeCalled_native, hr]

/-- C2 witness: a concrete ready connector with filtering rules disabled
whose `sync` raises a `DataSourceError`. -/
theorem C2_witness :
    (oneSync true (fun _ => true)
        ⟨true, Status.configured, false, none, none, some Exc.dataSourceError⟩).2 =
      Outcome.raised Exc.dataSourceError ∧
    (oneSync true (fun _ => true)
        ⟨true, Status.configured, false, none, none, some Exc.dataSourceError⟩).1.count
      Event.closeCalled = 1 := by
  have h := C2_sync_data_source_fault_uncaught (fun _ => true)
    ⟨true, Status.configured, false, none, none, some Exc.dataSourceError⟩
    rfl (by decide) (Or.inl rfl) rfl
  exact ⟨h.1, h.2.2.2.2⟩

/-- C4: a connector whose status is `CREATED` or `NEEDS_CONFIGURATION`
at the status gate (so prepare succeeded) never reaches `connector.sync`
and records no error, while the heartbeat is still started and the
connector is closed exactly once, returning normally. -/
theorem C4_not_ready_status_skips_sync (fatal : Exc → Bool) (c : Connector)
    (hp : c.prepare = none)
    (hst : c.status = Status.created ∨ c.status = Status.needsConfiguration) :
    (oneSync true fatal c).2 = Outcome.normal ∧
    Event.syncCalled ∉ (oneSync true fatal c).1 ∧
    Event.errorRecorded ∉ (oneSync true fatal c).1 ∧
    Event.heartbeatStarted ∈ (oneSync true fatal c).1 ∧
    (oneSync true fatal c).1.count Event.closeCalled = 1 := by
  have heq : oneSync true fatal c =
      ((if c.native then [Event.logNative] else []) ++
        [Event.prepareCalled, Event.heartbeatStarted, Event.logStatus,
         Event.logCantSync, Event.yielded, Event.closeCalled],
       Outcome.normal) := by
    simp [oneSync, hp, hst]
  refine ⟨by rw [heq], ?_, ?_, ?_, ?_⟩ <;> rw [heq]
  · intro hx
    rcases List.mem_append.mp hx with hx | hx
    · cases mem_native_elim hx
    · simp at hx
  · intro hx
    rcases List.mem_append.mp hx with hx | hx
    · cases mem_native_elim hx
    · simp at hx
  · simp
  · simp [List.count_append, count_closeCalled_native]

/-- C4 witness: a concrete connector in status `CREATED`. -/
theorem C4_witness :
    (oneSync true (fun _ => false)
        ⟨false, Status.created, true, none, none, none⟩).2 = Outcome.normal ∧
    Event.syncCalled ∉
      (oneSync true (fun _ => false)
        ⟨false, Status.created, true, none, none, none⟩).1 ∧
    Event.heartbeatStarted ∈
      (oneSync true (fun _ => false)
        ⟨false, Status.created, true, none, none, none⟩).1 := by
  have h := C4_not_ready_status_skips_sync (fun _ => false)
    ⟨false, Status.created, true, none, none, none⟩ rfl (Or.inl rfl)
  exact ⟨h.1, h.2.1, h.2.2.2.1⟩

/-- C5: a configuration-scope exception from `prepare`
(`ServiceTypeNotConfiguredError`, `ConnectorUpdateError`,
`ServiceTypeNotSupportedError`) makes the unit log - error level for the
first two, debug level for the unsupported type - and return normally:
the exception is never escalated, and any round containing the item
completes normally with every sibling unit running per its own
semantics. -/
theorem C5_config_scope_prepare_failure_item_scoped (fatal : Exc → Bool)
    (c : Connector)
    (hp : c.prepare = some Exc.serviceTypeNotConfigured ∨
          c.prepare = some Exc.connectorUpdateError ∨
          c.prepare = some Exc.serviceTypeNotSupported) :
    (oneSync true fatal c).2 = Outcome.normal ∧
    (c.prepare = some Exc.serviceTypeNotConfigured →
      (oneSync true fatal c).1 = (if c.native then [Event.logNative] else []) ++
        [Event.prepareCalled, Event.logErrorNotConfigured]) ∧
    (c.prepare = some Exc.connectorUpdateError →
      (oneSync true fatal c).1 = (if c.native then [Event.logNative] else []) ++
        [Event.prepareCalled, Event.logErrorUpdate]) ∧
    (c.prepare = some Exc.serviceTypeNotSupported →
      (oneSync true fatal c).1 = (if c.native then [Event.logNative] else []) ++
        [Event.prepareCalled, Event.logDebugNotSupported]) ∧
    (∀ (items : List Connector) (sd : Bool), c ∈ items →
      (roundTrace fatal ⟨items, none, sd⟩).2 = Outcome.normal ∧
      ∀ c2 ∈ items,
        LEvent.ranUnit (oneSync true fatal c2).1 (oneSync true fatal c2).2 ∈
          (roundTrace fatal ⟨items, none, sd⟩).1) := by
  refine ⟨?_, ?_, ?_, ?_, ?_⟩
  · rcases hp with hp | hp | hp <;> simp [oneSync, hp]
  · intro h; simp [oneSync, h]
  · intro h; simp [oneSync, h]
  · intro h; simp [oneSync, h]
  · intro items sd _
    constructor
    · simp [roundTrace]
    · intro c2 hc2
      simp only [roundTrace, List.mem_append, List.mem_map]
      exact Or.inl (Or.inr ⟨c2, hc2, rfl⟩)

/-- C5 witness: a two-item round in which the first connector's
`prepare` raises `ServiceTypeNotSupportedError` - the unit returns
normally with a single debug log after the prepare call, the round
completes normally, and the sibling's unit run is part of the round. -/
theorem C5_witness :
    (oneSync true (fun _ => false)
        ⟨false, Status.connected, false, some Exc.serviceTypeNotSupported,
         none, none⟩).2 = Outcome.normal ∧
    (roundTrace (fun _ => false)
        ⟨[⟨false, Status.connected, false, some Exc.serviceTypeNotSupported,
            none, none⟩,
          ⟨false, Status.configured, false, none, none, none⟩], none, false⟩).2 =
      Outcome.normal := by
  have h := C5_config_scope_prepare_failure_item_scoped (fun _ => false)
    ⟨false, Status.connected, false, some Exc.serviceTypeNotSupported, none, none⟩
    (Or.inr (Or.inr rfl))
  refine ⟨h.1, ?_⟩
  exact (h.2.2.2.2
    [⟨false, Status.connected, false, some Exc.serviceTypeNotSupported, none, none⟩,
     ⟨false, Status.configured, false, none, none, none⟩] false
    (by simp)).1

theorem roundTrace_loop_only (fatal : Exc → Bool) (r : RoundInput) :
    LEvent.slept ∉ (roundTrace fatal r).1 ∧
    LEvent.dirStopWaiting ∉ (roundTrace fatal r).1 ∧
    LEvent.dirClosed ∉ (roundTrace fatal r).1 ∧
    LEvent.esClosed ∉ (roundTrace fatal r).1 := by
  rcases hd : r.discoveryError with _ | e <;>
    refine ⟨?_, ?_, ?_, ?_⟩ <;>
      simp [roundTrace, hd, List.mem_append, List.mem_map]

theorem poolJoined_mem_roundTrace (fatal : Exc → Bool) (r : RoundInput) :
    LEvent.poolJoined ∈ (roundTrace fatal r).1 := by
  rcases hd : r.discoveryError with _ | e <;> simp [roundTrace, hd]

theorem mem_loopIters (fatal : Exc → Bool) (rs : List RoundInput) (x : LEvent)
    (hx : x ∈ (loopIters fatal rs).1) :
    x = LEvent.slept ∨ ∃ r, r ∈ rs ∧ x ∈ (roundTrace fatal r).1 := by
  induction rs with
  | nil => simp [loopIters] at hx
  | cons r rest ih =>
      simp only [loopIters] at hx
      rcases ho : (roundTrace fatal r).2 with _ | e
      · rw [ho] at hx
        by_cases hsd : r.stopDuring = true
        · simp only [hsd, if_true] at hx
          exact Or.inr ⟨r, List.mem_cons_self r rest, hx⟩
        · simp only [hsd, if_false] at hx
          rcases List.mem_append.mp hx with hx | hx
          · exact Or.inr ⟨r, List.mem_cons_self r rest, hx⟩
          · rcases List.mem_cons.mp hx with hx | hx
            · exact Or.inl hx
            · rcases ih hx with hx | ⟨r2, hr2, hx⟩
              · exact Or.inl hx
              · exact Or.inr ⟨r2, List.mem_cons_of_mem r hr2, hx⟩
      · rw [ho] at hx
        exact Or.inr ⟨r, List.mem_cons_self r rest, hx⟩

theorem loopIters_no_teardown (fatal : Exc → Bool) (rs : List RoundInput) :
    LEvent.dirStopWaiting ∉ (loopIters fatal rs).1 ∧
    LEvent.dirClosed ∉ (loopIters fatal rs).1 ∧
    LEvent.esClosed ∉ (loopIters fatal rs).1 := by
  refine ⟨?_, ?_, ?_⟩ <;>
  · intro hx
    rcases mem_loopIters fatal rs _ hx with h | ⟨r, _, hr⟩
    · cases h
    · have h4 := roundTrace_loop_only fatal r
      first
        | exact h4.2.1 hr
        | exact h4.2.2.1 hr
        | exact h4.2.2.2 hr

/-- C6: `stop()` sets the run-state flag to false and requests
cancellation on the current round's pool exactly when one exists, without
joining (it does not wait for in-flight items); in the loop, a round
during which stop was requested still joins its pool to completion, after
which the loop exits with the trace of that round alone - no sleep and no
further round. -/
theorem C6_stop_flag_cancel_and_prompt_exit (s : SvcState) (fatal : Exc → Bool)
    (r : RoundInput) (rest : List RoundInput) (hstop : r.stopDuring = true)
    (hnorm : (roundTrace fatal r).2 = Outcome.normal) :
    (stop s).1.running = false ∧
    (stop s).2 = (if s.syncsExists then [LEvent.cancelRequested] else []) ∧
    LEvent.poolJoined ∉ (stop s).2 ∧
    loopIters fatal (r :: rest) = ((roundTrace fatal r).1, Outcome.normal) ∧
    LEvent.poolJoined ∈ (roundTrace fatal r).1 ∧
    LEvent.slept ∉ (loopIters fatal (r :: rest)).1 := by
  have hloop : loopIters fatal (r :: rest) = ((roundTrace fatal r).1, Outcome.normal) := by
    simp [loopIters, hnorm, hstop]
  refine ⟨rfl, rfl, ?_, hloop, poolJoined_mem_roundTrace fatal r, ?_⟩
  · by_cases hb : s.syncsExists = true <;> simp [stop, hb]
  · rw [hloop]
    exact (roundTrace_loop_only fatal r).1

/-- C6 witness: stopping a service whose pool exists, during an empty
round followed by another pending round that never begins. -/
theorem C6_witness :
    (stop ⟨true, true⟩).1.running = false ∧
    (stop ⟨true, true⟩).2 = [LEvent.cancelRequested] ∧
    loopIters (fun _ => false) [⟨[], none, true⟩, ⟨[], none, false⟩] =
      ((roundTrace (fun _ => false) ⟨[], none, true⟩).1, Outcome.normal) := by
  have h := C6_stop_flag_cancel_and_prompt_exit ⟨true, true⟩ (fun _ => false)
    ⟨[], none, true⟩ [⟨[], none, false⟩] rfl rfl
  exact ⟨h.1, by simpa using h.2.1, h.2.2.2.1⟩

/-- C7: on every exit of the orchestration loop - normal or after a
fatal error - the directory connection and the execution backend
connection are each closed exactly once, the directory connection
strictly before the backend connection, in the guaranteed teardown
suffix of the trace. -/
theorem C7_teardown_exactly_once_in_order (fatal : Exc → Bool)
    (rounds : List RoundInput) :
    (runService fatal rounds).1.count LEvent.dirClosed = 1 ∧
    (runService fatal rounds).1.count LEvent.esClosed = 1 ∧
    ∃ t, (runService fatal rounds).1 =
        t ++ [LEvent.dirStopWaiting, LEvent.dirClosed, LEvent.esClosed] ∧
      LEvent.dirStopWaiting ∉ t ∧ LEvent.dirClosed ∉ t ∧ LEvent.esClosed ∉ t := by
  have hmem := loopIters_no_teardown fatal rounds
  refine ⟨?_, ?_, (loopIters fatal rounds).1, rfl, hmem.1, hmem.2.1, hmem.2.2⟩
  · have h0 : (loopIters fatal rounds).1.count LEvent.dirClosed = 0 :=
      List.count_eq_zero.mpr hmem.2.1
    simp [runService, List.count_append, h0]
  · have h0 : (loopIters fatal rounds).1.count LEvent.esClosed = 0 :=
      List.count_eq_zero.mpr hmem.2.2
    simp [runService, List.count_append, h0]

/-- C8: every round joins its pool exactly once, as the last action of
the round - so after all submitted units and before the loop either
propagates a fatal error or proceeds; an exception escaping the
discovery/submission loop is logged at critical severity and handed to
the classifier, the round's outcome being fatal or normal per the
classifier's verdict. -/
theorem C8_round_always_joins (fatal : Exc → Bool) (r : RoundInput) :
    (roundTrace fatal r).1.count LEvent.poolJoined = 1 ∧
    (∃ t, (roundTrace fatal r).1 = t ++ [LEvent.poolJoined]) ∧
    (∀ c ∈ r.items,
      LEvent.ranUnit (oneSync true fatal c).1 (oneSync true fatal c).2 ∈
        (roundTrace fatal r).1) ∧
    (∀ e, r.discoveryError = some e →
      LEvent.logCriticalDiscovery ∈ (roundTrace fatal r).1 ∧
      LEvent.loopClassifierConsulted ∈ (roundTrace fatal r).1 ∧
      (roundTrace fatal r).2 =
        (if fatal e then Outcome.raised e else Outcome.normal)) ∧
    (r.discoveryError = none → (roundTrace fatal r).2 = Outcome.normal) := by
  have hsubs : ∀ (items : List Connector),
      (items.map fun c =>
        LEvent.ranUnit (oneSync true fatal c).1 (oneSync true fatal c).2).count
        LEvent.poolJoined = 0 := by
    intro items
    exact List.count_eq_zero.mpr (by simp)
  refine ⟨?_, ?_, ?_, ?_, ?_⟩
  · rcases hd : r.discoveryError with _ | e <;>
      simp [roundTrace, hd, List.count_append, hsubs]
  · rcases hd : r.discoveryError with _ | e
    · exact ⟨[LEvent.poolCreated, LEvent.logPolling] ++
        (r.items.map fun c =>
          LEvent.ranUnit (oneSync true fatal c).1 (oneSync true fatal c).2),
        by simp [roundTrace, hd]⟩
    · exact ⟨[LEvent.poolCreated, LEvent.logPolling] ++
        (r.items.map fun c =>
          LEvent.ranUnit (oneSync true fatal c).1 (oneSync true fatal c).2) ++
        [LEvent.logCriticalDiscovery, LEvent.loopClassifierConsulted],
        by simp [roundTrace, hd]⟩
  · intro c hc
    rcases hd : r.discoveryError with _ | e <;>
      simp only [roundTrace, hd, List.mem_append, List.mem_map] <;>
      exact Or.inl (Or.inr ⟨c, hc, rfl⟩)
  · intro e hd
    refine ⟨by simp [roundTrace, hd], by simp [roundTrace, hd], by simp [roundTrace, hd]⟩
  · intro hd
    simp [roundTrace, hd]

/-- C8 witness: an empty round whose discovery raises an unclassified
exception under an all-fatal classifier verdict. -/
theorem C8_witness :
    LEvent.logCriticalDiscovery ∈
      (roundTrace (fun _ => true) ⟨[], some Exc.other, false⟩).1 ∧
    (roundTrace (fun _ => true) ⟨[], some Exc.other, false⟩).2 =
      Outcome.raised Exc.other := by
  have h := C8_round_always_joins (fun _ => true) ⟨[], some Exc.other, false⟩
  have h2 := h.2.2.2.1 Exc.other rfl
  exact ⟨h2.1, by simpa using h2.2.2⟩

theorem pool_invariant (N : Nat) (s : PoolState) (h : PoolReachable N s) :
    s.inflight ≤ N ∧ s.pending + s.inflight + s.done = s.offered := by
  induction h with
  | refl => exact ⟨Nat.zero_le N, rfl⟩
  | tail _ step ih =>
      obtain ⟨ih1, ih2⟩ := ih
      cases step with
      | offer =>
          refine ⟨ih1, ?_⟩
          dsimp only
          omega
      | start hp hi =>
          refine ⟨?_, ?_⟩ <;> (dsimp only; omega)
      | finish hi =>
          refine ⟨?_, ?_⟩ <;> (dsimp only; omega)

/-- C3: the configured concurrency budget defaults to 1 when absent, and
in every reachable state of a round's task pool the number of in-flight
units never exceeds the budget; offered work is conserved (pending,
in-flight and done units always account for everything offered - nothing
is dropped), and the in-flight count grows only from strictly below the
budget (admission beyond it suspends the producer). -/
theorem C3_concurrency_never_exceeds_budget (cfg : Option Nat) (s : PoolState)
    (h : PoolReachable (concurrentSyncs cfg) s) :
    concurrentSyncs none = 1 ∧
    s.inflight ≤ concurrentSyncs cfg ∧
    s.pending + s.inflight + s.done = s.offered ∧
    (∀ s1 s2 : PoolState, PoolStep (concurrentSyncs cfg) s1 s2 →
      s1.inflight < s2.inflight → s1.inflight < concurrentSyncs cfg) := by
  refine ⟨rfl, (pool_invariant _ s h).1, (pool_invariant _ s h).2, ?_⟩
  intro s1 s2 step hgt
  cases step with
  | offer => exact absurd hgt (lt_irrefl _)
  | start hp hi => exact hi
  | finish hi =>
      exact absurd hgt (by show ¬s1.inflight < s1.inflight - 1; omega)

/-- C3 witness: with `max_concurrent_syncs` absent the budget is 1, and
the pool state reached by offering one unit and admitting it has one
unit in flight, within the budget. -/
theorem C3_witness :
    PoolReachable (concurrentSyncs none) ⟨0, 1, 0, 1⟩ ∧
    concurrentSyncs none = 1 ∧
    (⟨0, 1, 0, 1⟩ : PoolState).inflight ≤ concurrentSyncs none := by
  have hreach : PoolReachable (concurrentSyncs none) ⟨0, 1, 0, 1⟩ :=
    Relation.ReflTransGen.tail
      (Relation.ReflTransGen.tail Relation.ReflTransGen.refl
        (PoolStep.offer ⟨0, 0, 0, 0⟩))
      (PoolStep.start ⟨1, 0, 0, 1⟩ (by decide) (by decide))
  have h := C3_concurrency_never_exceeds_budget none ⟨0, 1, 0, 1⟩ hreach
  exact ⟨hreach, h.1, h.2.1⟩

end SyncSpec
